import Mathlib

/-!
Verification of the Granula chunked CSV processor against its specification.

The definitions below are a shallow embedding of the Python source:

* `src/app/services/processing.py` — `ChunkTask`, `ProcessingManager`
  (`enqueue_file`, `_validate_csv_structure`, `_process_task`,
  `_read_rows_in_thread`, `_maybe_finalize_file`);
* `src/app/api/routes.py` — `upload`, `get_file_status`;
* `src/app/main.py` — the `lifespan` startup sequence;
* `src/app/core/config.py` — `Settings` defaults.

Machine integers are modelled as `Nat` (all quantities involved are
non-negative row/byte counts), the float backoff settings as `ℚ`
(the defaults 1.0 and 30.0 are exact in both), database rows as
structures, and the filesystem as `Option` blob content.
-/

namespace Granula

/-- File statuses (`files.status` column values used by the source). -/
inductive FileSt where
  | queued
  | processing
  | completed
  | completedWithErrors
  | failed
deriving DecidableEq, Repr

/-- Chunk statuses (`chunks.status` column values used by the source). -/
inductive ChunkSt where
  | queued
  | processing
  | completed
  | failed
deriving DecidableEq, Repr

/-- Terminal file statuses per the spec glossary: `completed`,
`completed_with_errors`, `failed`. -/
def FileSt.isTerminal : FileSt → Bool
  | FileSt.completed => true
  | FileSt.completedWithErrors => true
  | FileSt.failed => true
  | _ => false

/-- The `result_meta` JSON column of a chunk row: the planner stores
`{"start_cookie": ..., "num_rows": n}` (the cookie value is modelled
separately at byte level, see `plannerBytes`, because its computation is the
subject of claim C1); `_process_task` overwrites it with
`{"processed_rows": n}`. -/
inductive ResultMeta where
  | planned (numRows : ℕ)
  | processedRows (n : ℕ)
deriving DecidableEq, Repr

/-- A row of the `files` table (src/app/db/models.py, class `File`).
Timestamps are omitted; `path` is `Option` because the source guards
`if not file.path`. -/
structure FileRec where
  id : ℕ
  filename : String
  path : Option String
  status : FileSt
  totalChunks : ℕ
  processedChunks : ℕ
  failedChunks : ℕ
  errorMessage : Option String
deriving DecidableEq, Repr

/-- A row of the `chunks` table (src/app/db/models.py, class `Chunk`),
timestamps omitted. -/
structure ChunkRec where
  fileId : ℕ
  index : ℕ
  status : ChunkSt
  attempts : ℕ
  resultMeta : Option ResultMeta
  errorMessage : Option String
deriving DecidableEq, Repr

/-- The configuration values of `Settings` (src/app/core/config.py) used by
the processing core, with their default values. -/
structure Settings where
  chunkSize : ℕ := 10000
  maxRetries : ℕ := 3
  baseBackoff : ℚ := 1
  maxBackoff : ℚ := 30
  maxUploadMb : ℕ := 500
  deleteFileOnComplete : Bool := false
deriving DecidableEq, Repr

def defaultSettings : Settings := {}

/-- Embeds `ProcessingManager._maybe_finalize_file`
(src/app/services/processing.py lines 292-310): if `total_chunks` is zero
nothing happens; if `processed_chunks + failed_chunks >= total_chunks` the
file status is set to `completed` / `failed` / `completed_with_errors`
according to the counters; otherwise the row is left unchanged. -/
def maybeFinalizeFile (f : FileRec) : FileRec :=
  if f.totalChunks = 0 then f
  else if f.totalChunks ≤ f.processedChunks + f.failedChunks then
    { f with status :=
        if f.failedChunks = 0 then FileSt.completed
        else if f.processedChunks = 0 then FileSt.failed
        else FileSt.completedWithErrors }
  else f

/-- A file row with `total_chunks = 1` but `processed_chunks = 2`
(reachable because `_process_task` re-processes chunks without a claim
guard); the finalization guard `>=` fires although the sum differs from
`total_chunks`. -/
def c2file : FileRec :=
  { id := 9, filename := "x.csv", path := some "storage/uploads/x.csv",
    status := FileSt.processing, totalChunks := 1, processedChunks := 2,
    failedChunks := 0, errorMessage := none }

/-- C2 counterexample: the claimed equivalence uses
`processed_chunks + failed_chunks == total_chunks`, but the source guard is
`>=`; at `total_chunks = 1`, `processed_chunks = 2`, `failed_chunks = 0`
the file is finalized (status `completed`, terminal) although the sum does
not equal `total_chunks`, so the claimed iff fails. -/
theorem c2_counterexample :
    ¬ (((maybeFinalizeFile c2file).status.isTerminal = true)
        ↔ (c2file.processedChunks + c2file.failedChunks = c2file.totalChunks
            ∧ 0 < c2file.totalChunks)) := by
  decide

/-- C2 (amended): for a file whose status is not yet terminal,
`_maybe_finalize_file` makes the status terminal iff
`total_chunks > 0` and `processed_chunks + failed_chunks >= total_chunks`
(the source uses `>=`, not `==`); and when it fires, the terminal status is
`completed` if `failed_chunks = 0`, `failed` if `processed_chunks = 0`,
and `completed_with_errors` otherwise. -/
theorem c2_finalize_guard (f : FileRec) (hnt : f.status.isTerminal = false) :
    (((maybeFinalizeFile f).status.isTerminal = true)
        ↔ (0 < f.totalChunks
            ∧ f.totalChunks ≤ f.processedChunks + f.failedChunks))
    ∧ (0 < f.totalChunks →
        f.totalChunks ≤ f.processedChunks + f.failedChunks →
        (maybeFinalizeFile f).status =
          (if f.failedChunks = 0 then FileSt.completed
           else if f.processedChunks = 0 then FileSt.failed
           else FileSt.completedWithErrors)) := by
  unfold maybeFinalizeFile
  by_cases h0 : f.totalChunks = 0
  · rw [if_pos h0]
    refine ⟨⟨fun ht => ?_, fun hc => absurd h0 ?_⟩, fun hpos _ => absurd h0 ?_⟩
    · rw [hnt] at ht
      exact Bool.noConfusion ht
    · have := hc.1
      omega
    · omega
  · by_cases hge : f.totalChunks ≤ f.processedChunks + f.failedChunks
    · rw [if_neg h0, if_pos hge]
      refine ⟨⟨fun _ => ⟨Nat.pos_of_ne_zero h0, hge⟩, fun _ => ?_⟩, fun _ _ => rfl⟩
      by_cases hf : f.failedChunks = 0
      · simp [hf, FileSt.isTerminal]
      · by_cases hp : f.processedChunks = 0
        · simp [hf, hp, FileSt.isTerminal]
        · simp [hf, hp, FileSt.isTerminal]
    · rw [if_neg h0, if_neg hge]
      refine ⟨⟨fun ht => ?_, fun hc => absurd hc.2 hge⟩, fun _ hc => absurd hc hge⟩
      rw [hnt] at ht
      exact Bool.noConfusion ht

/-- Witness for `c2_finalize_guard` at a concrete non-terminal file with
`total_chunks = 2`, `processed_chunks = 1`, `failed_chunks = 1`. -/
def c2wfile : FileRec :=
  { id := 3, filename := "w.csv", path := some "storage/uploads/w.csv",
    status := FileSt.processing, totalChunks := 2, processedChunks := 1,
    failedChunks := 1, errorMessage := none }

theorem c2_finalize_guard_witness :
    c2wfile.status.isTerminal = false
    ∧ ((((maybeFinalizeFile c2wfile).status.isTerminal = true)
          ↔ (0 < c2wfile.totalChunks
              ∧ c2wfile.totalChunks ≤ c2wfile.processedChunks + c2wfile.failedChunks))
        ∧ (0 < c2wfile.totalChunks →
            c2wfile.totalChunks ≤ c2wfile.processedChunks + c2wfile.failedChunks →
            (maybeFinalizeFile c2wfile).status =
              (if c2wfile.failedChunks = 0 then FileSt.completed
               else if c2wfile.processedChunks = 0 then FileSt.failed
               else FileSt.completedWithErrors))) :=
  ⟨by decide, c2_finalize_guard c2wfile (by decide)⟩

/-! ## CSV model

Blob content is a list of bytes/characters. The CSV dialect the source
feeds through `csv.reader` is modelled for unquoted fields (all inputs
used in theorems below contain no quotes): physical lines are separated by
a newline character, a trailing newline produces no extra row (after the
last newline `csv.reader` raises StopIteration), a blank line yields the
empty row `[]`, and fields within a line are comma-separated. -/

/-- Accumulator-based splitting of content into physical lines at newline
characters; a final segment without trailing newline still forms a line. -/
def splitLinesAux : List Char → List Char → List (List Char)
  | [], acc => if acc = [] then [] else [acc.reverse]
  | c :: rest, acc =>
      if c = '\n' then acc.reverse :: splitLinesAux rest []
      else splitLinesAux rest (c :: acc)

def splitLines (content : List Char) : List (List Char) :=
  splitLinesAux content []

/-- Split one physical line into comma-separated fields
(so "a,,b" gives three fields and "" gives one empty field). -/
def splitFields : List Char → List (List Char)
  | [] => [[]]
  | c :: rest =>
      if c = ',' then [] :: splitFields rest
      else match splitFields rest with
        | [] => [[c]]
        | fld :: flds => (c :: fld) :: flds

/-- A parsed CSV row as produced by csv.reader on unquoted content:
a blank line is the empty row, otherwise the comma-separated fields. -/
def parseRow (line : List Char) : List (List Char) :=
  if line = [] then [] else splitFields line

/-- The full row sequence csv.reader yields on the content. -/
def parseCsv (content : List Char) : List (List (List Char)) :=
  (splitLines content).map parseRow

/-- Embeds the chunk reader `_read_rows` inside
`ProcessingManager._read_rows_in_thread` (src/app/services/processing.py
lines 276-288): seek to start_cookie, parse CSV from that byte position and
take up to num_rows rows (fewer on EOF). -/
def readRowsAt (content : List Char) (startCookie numRows : ℕ) :
    List (List (List Char)) :=
  (parseCsv (content.drop startCookie)).take numRows

/-- Embeds the row-counting loop of
`ProcessingManager._validate_csv_structure` (src/app/services/processing.py
lines 78-84): for each data row increment row_count, failing when its
column count differs from the header's. Returns (is_valid, row_count). -/
def validateRows (hlen : ℕ) : List (List (List Char)) → ℕ → Bool × ℕ
  | [], count => (true, count)
  | r :: rest, count =>
      if r.length ≠ hlen then (false, count + 1)
      else validateRows hlen rest (count + 1)

/-- Embeds `ProcessingManager._validate_csv_structure`
(src/app/services/processing.py lines 69-86): the first parsed row is the
header (a missing or falsy/empty header row fails with "Empty file"),
row_count starts at 1 for the header. -/
def validateCsvStructure (content : List Char) : Bool × ℕ :=
  match parseCsv content with
  | [] => (false, 0)
  | header :: rest =>
      if header = [] then (false, 0)
      else validateRows header.length rest 1

/-- Embeds the row-counting structure of the planner loop in
`ProcessingManager.enqueue_file` (src/app/services/processing.py lines
121-147), abstracted over the row contents: rows are consumed one at a
time; each row increments current_chunk_rows; when it reaches chunk_size a
chunk (index, num_rows) is emitted and the counter resets; at EOF a final
partial chunk is emitted when non-empty. The byte start cookies recorded
alongside are modelled at byte level in plannerBytes. -/
def planLoop (cs : ℕ) : List α → ℕ → ℕ → List (ℕ × ℕ)
  | [], idx, cur => if 0 < cur then [(idx, cur)] else []
  | _ :: rest, idx, cur =>
      if cs ≤ cur + 1 then (idx, cur + 1) :: planLoop cs rest (idx + 1) 0
      else planLoop cs rest idx (cur + 1)

/-- The data rows the planner iterates over: the csv rows of the blob with
the header skipped (line 119, next(reader)). -/
def fileDataRows (content : List Char) : List (List (List Char)) :=
  (parseCsv content).drop 1

/-- Ceiling division, embedding math.ceil((total_rows - 1) / chunk_size)
(line 111). Python computes this via float division; for row counts below
2^53 (far above any representable upload) the float ceiling agrees with
exact ceiling division. -/
def cdiv (n cs : ℕ) : ℕ := (n + cs - 1) / cs

/-- Embeds `ProcessingManager.enqueue_file` (src/app/services/processing.py
lines 88-149) acting on one file row: result is (updated file row, chunk
rows created, queue entries pushed — here (index, num_rows) pairs).

* no path or blob missing on disk: file status failed with
  "file not found on disk", nothing created;
* CSV structural validation fails: file status failed with
  "CSV validation failed: ...", nothing created;
* otherwise: file status processing, total_chunks set to
  ceil((total_rows - 1) / chunk_size), and one chunk row (status queued,
  attempts 0, result_meta planned) plus one queue entry per planned chunk,
  indices assigned in emission order. -/
def enqueueFile (s : Settings) (f : FileRec) (disk : Option (List Char)) :
    FileRec × List ChunkRec × List (ℕ × ℕ) :=
  match f.path, disk with
  | none, _ =>
      ({ f with status := FileSt.failed,
                errorMessage := some "file not found on disk" }, [], [])
  | some _, none =>
      ({ f with status := FileSt.failed,
                errorMessage := some "file not found on disk" }, [], [])
  | some _, some content =>
      let v := validateCsvStructure content
      if v.1 = false then
        ({ f with status := FileSt.failed,
                  errorMessage := some "CSV validation failed" }, [], [])
      else
        let f1 := { f with status := FileSt.processing,
                           totalChunks := cdiv (v.2 - 1) s.chunkSize }
        let plan := planLoop s.chunkSize (fileDataRows content) 0 0
        (f1,
         plan.map (fun p =>
           { fileId := f.id, index := p.1, status := ChunkSt.queued,
             attempts := 0, resultMeta := some (ResultMeta.planned p.2),
             errorMessage := none }),
         plan)

/-! ## Shape of the planner output (claim C5) -/

theorem planLoop_map_fst {α : Type} (cs : ℕ) (hcs : 1 ≤ cs) :
    ∀ (rows : List α) (idx cur : ℕ), cur < cs →
      (planLoop cs rows idx cur).map Prod.fst
        = List.range' idx (cdiv (cur + rows.length) cs) := by
  intro rows
  induction rows with
  | nil =>
      intro idx cur hcur
      by_cases h0 : 0 < cur
      · have h1 : cdiv (cur + ([] : List α).length) cs = 1 := by
          show (cur + ([] : List α).length + cs - 1) / cs = 1
          have := Nat.div_eq_of_lt_le
            (show 1 * cs ≤ cur + ([] : List α).length + cs - 1 by
              simp only [List.length_nil]; omega)
            (show cur + ([] : List α).length + cs - 1 < (1 + 1) * cs by
              simp only [List.length_nil]; omega)
          exact this
        rw [h1]
        simp [planLoop, h0, List.range']
      · have hc0 : cur = 0 := by omega
        subst hc0
        have h1 : cdiv (0 + ([] : List α).length) cs = 0 := by
          show (0 + ([] : List α).length + cs - 1) / cs = 0
          exact Nat.div_eq_of_lt (by simp only [List.length_nil]; omega)
        rw [h1]
        simp [planLoop]
  | cons a rest ih =>
      intro idx cur hcur
      by_cases hfull : cs ≤ cur + 1
      · have hceq : cur + 1 = cs := by omega
        have harg : cur + (a :: rest).length + cs - 1
            = (rest.length + cs - 1) + cs := by
          simp only [List.length_cons]; omega
        have hdiv : cdiv (cur + (a :: rest).length) cs
            = cdiv rest.length cs + 1 := by
          show (cur + (a :: rest).length + cs - 1) / cs
              = (rest.length + cs - 1) / cs + 1
          rw [harg, Nat.add_div_right _ (by omega)]
        rw [hdiv]
        simp only [planLoop, if_pos hfull, List.map_cons]
        rw [ih (idx + 1) 0 (by omega)]
        simp [List.range'_succ]
      · simp only [planLoop, if_neg hfull]
        rw [ih idx (cur + 1) (by omega)]
        have harg : cur + 1 + rest.length = cur + (a :: rest).length := by
          simp only [List.length_cons]; omega
        rw [harg]

theorem planLoop_dropLast_full {α : Type} (cs : ℕ) :
    ∀ (rows : List α) (idx cur : ℕ), cur < cs →
      ∀ p ∈ (planLoop cs rows idx cur).dropLast, p.2 = cs := by
  intro rows
  induction rows with
  | nil =>
      intro idx cur _ p hp
      by_cases h0 : 0 < cur
      · simp [planLoop, h0] at hp
      · simp [planLoop, h0] at hp
  | cons a rest ih =>
      intro idx cur hcur p hp
      by_cases hfull : cs ≤ cur + 1
      · have hceq : cur + 1 = cs := by omega
        simp only [planLoop, if_pos hfull] at hp
        cases htail : planLoop cs rest (idx + 1) 0 with
        | nil =>
            rw [htail] at hp
            simp at hp
        | cons b bs =>
            rw [htail] at hp
            rw [List.dropLast_cons₂] at hp
            rcases List.mem_cons.mp hp with h | h
            · rw [h]
              exact hceq
            · have := ih (idx + 1) 0 (by omega) p
              rw [htail] at this
              exact this h
      · simp only [planLoop, if_neg hfull] at hp
        exact ih idx (cur + 1) (by omega) p hp

theorem validateRows_count (hlen : ℕ) :
    ∀ (rows : List (List (List Char))) (count : ℕ),
      (validateRows hlen rows count).1 = true →
      (validateRows hlen rows count).2 = count + rows.length := by
  intro rows
  induction rows with
  | nil => intro count _; simp [validateRows]
  | cons r rest ih =>
      intro count hv
      by_cases hr : r.length ≠ hlen
      · simp [validateRows, hr] at hv
      · simp only [validateRows, if_neg hr] at hv ⊢
        rw [ih (count + 1) hv]
        simp only [List.length_cons]
        omega

/-- When structural validation succeeds, its row count is one (the header)
plus the number of data rows the planner will consume. -/
theorem validate_count_dataRows (content : List Char)
    (hok : (validateCsvStructure content).1 = true) :
    (validateCsvStructure content).2 - 1 = (fileDataRows content).length := by
  unfold validateCsvStructure at hok ⊢
  unfold fileDataRows
  generalize hp : parseCsv content = rows at hok ⊢
  cases rows with
  | nil => simp at hok
  | cons header rest =>
      have hok2 : (if header = [] then ((false, 0) : Bool × ℕ)
          else validateRows header.length rest 1).1 = true := hok
      show (if header = [] then ((false, 0) : Bool × ℕ)
          else validateRows header.length rest 1).2 - 1
        = (List.drop 1 (header :: rest)).length
      by_cases hh : header = []
      · rw [if_pos hh] at hok2
        simp at hok2
      · rw [if_neg hh] at hok2 ⊢
        rw [validateRows_count header.length rest 1 hok2]
        simp

/-- C5: for every file the planner processes successfully (path present,
blob readable, structural validation passes, chunk_size ≥ 1), the chunk
rows created by enqueue_file carry the contiguous indices
0 .. total_chunks - 1 in increasing order, their number equals the
total_chunks value stored on the file row, and every chunk except possibly
the last is planned with exactly chunk_size rows. -/
theorem c5_planner_chunks (s : Settings) (f : FileRec) (content : List Char)
    (pth : String) (hcs : 1 ≤ s.chunkSize) (hp : f.path = some pth)
    (hok : (validateCsvStructure content).1 = true) :
    ((enqueueFile s f (some content)).2.1.map ChunkRec.index
        = List.range (enqueueFile s f (some content)).1.totalChunks)
    ∧ (enqueueFile s f (some content)).2.1.length
        = (enqueueFile s f (some content)).1.totalChunks
    ∧ ∀ c ∈ (enqueueFile s f (some content)).2.1.dropLast,
        c.resultMeta = some (ResultMeta.planned s.chunkSize) := by
  have hmain :
      (enqueueFile s f (some content)).2.1.map ChunkRec.index
        = List.range (enqueueFile s f (some content)).1.totalChunks := by
    simp only [enqueueFile, hp]
    rw [if_neg (by simp [hok])]
    simp only [List.map_map]
    have hcomp :
        (ChunkRec.index ∘ fun p : ℕ × ℕ =>
          ({ fileId := f.id, index := p.1, status := ChunkSt.queued,
             attempts := 0, resultMeta := some (ResultMeta.planned p.2),
             errorMessage := none } : ChunkRec)) = Prod.fst := by
      funext p
      rfl
    rw [hcomp, planLoop_map_fst s.chunkSize hcs (fileDataRows content) 0 0
          (by omega)]
    rw [List.range_eq_range']
    have harg : 0 + (fileDataRows content).length
        = (validateCsvStructure content).2 - 1 := by
      rw [validate_count_dataRows content hok]
      omega
    rw [harg]
  refine ⟨hmain, ?_, ?_⟩
  · have := congrArg List.length hmain
    simpa using this
  · intro c hc
    have hchunks :
        (enqueueFile s f (some content)).2.1
          = (planLoop s.chunkSize (fileDataRows content) 0 0).map
              (fun p : ℕ × ℕ =>
                ({ fileId := f.id, index := p.1, status := ChunkSt.queued,
                   attempts := 0,
                   resultMeta := some (ResultMeta.planned p.2),
                   errorMessage := none } : ChunkRec)) := by
      simp only [enqueueFile, hp]
      rw [if_neg (by simp [hok])]
    rw [hchunks] at hc
    rw [← List.map_dropLast] at hc
    rcases List.mem_map.mp hc with ⟨p, hpmem, hpeq⟩
    have hfull := planLoop_dropLast_full s.chunkSize (fileDataRows content)
      0 0 (by omega) p hpmem
    rw [← hpeq]
    simp [hfull]

/-- Witness inputs for c5_planner_chunks: header plus three data rows,
chunk_size 2. -/
def c5settings : Settings := { chunkSize := 2 }

def c5content : List Char := ['h', '\n', '1', '\n', '2', '\n', '3', '\n']

def c5file : FileRec :=
  { id := 4, filename := "c5.csv", path := some "storage/uploads/c5.csv",
    status := FileSt.queued, totalChunks := 0, processedChunks := 0,
    failedChunks := 0, errorMessage := none }

theorem c5_planner_chunks_witness :
    1 ≤ c5settings.chunkSize
    ∧ (validateCsvStructure c5content).1 = true
    ∧ (((enqueueFile c5settings c5file (some c5content)).2.1.map ChunkRec.index
          = List.range (enqueueFile c5settings c5file (some c5content)).1.totalChunks)
        ∧ (enqueueFile c5settings c5file (some c5content)).2.1.length
            = (enqueueFile c5settings c5file (some c5content)).1.totalChunks
        ∧ ∀ c ∈ (enqueueFile c5settings c5file (some c5content)).2.1.dropLast,
            c.resultMeta = some (ResultMeta.planned c5settings.chunkSize)) :=
  ⟨by decide, by decide,
   c5_planner_chunks c5settings c5file c5content "storage/uploads/c5.csv"
     (by decide) (by decide) (by decide)⟩

/-! ## Byte-level model of the planner's start cookies (claim C1)

In enqueue_file the blob is opened in binary mode (fb) and wrapped in
io.TextIOWrapper; csv.reader pulls lines from the wrapper, and the code
records fb.tell() as the start cookie of a chunk. The wrapper, however,
reads from the binary stream in blocks of up to 8192 bytes
(TextIOWrapper._CHUNK_SIZE, via buffer read1), so fb.tell() reports how
many bytes the wrapper has consumed from the file — the read-ahead
position — not the byte offset of the next unparsed row. The model below
reproduces this: a wrapper state holds the underlying position (what
fb.tell() returns) and the decoded lookahead buffer. -/

/-- TextIOWrapper state over a binary file: pos is the position of the
underlying binary stream (the value fb.tell() yields), buf the decoded
characters read ahead but not yet delivered. -/
structure Wrap where
  pos : ℕ
  buf : List Char
deriving DecidableEq, Repr

/-- One buffered read of up to bsize bytes from the underlying stream
(buffer.read1(chunk_size) in TextIOWrapper). -/
def refill (content : List Char) (bsize : ℕ) (w : Wrap) : Wrap :=
  { pos := min content.length (w.pos + bsize),
    buf := w.buf ++ (content.drop w.pos).take bsize }

/-- Split the lookahead buffer at its first newline, when it has one. -/
def takeLine : List Char → Option (List Char × List Char)
  | [] => none
  | c :: rest =>
      if c = '\n' then some ([], rest)
      else match takeLine rest with
        | some (l, r) => some (c :: l, r)
        | none => none

/-- TextIOWrapper readline (what next(reader) consumes): deliver the next
physical line, refilling from the underlying stream while the buffer holds
no complete line; at EOF a non-empty remainder forms the last line. The
fuel argument bounds the number of refills (content.length + 1 always
suffices since each refill advances pos). -/
def readLine (content : List Char) (bsize : ℕ) :
    ℕ → Wrap → Option (List Char × Wrap)
  | 0, _ => none
  | fuel + 1, w =>
      match takeLine w.buf with
      | some (l, rest) => some (l, { w with buf := rest })
      | none =>
          if w.pos < content.length then
            readLine content bsize fuel (refill content bsize w)
          else if w.buf = [] then none
          else some (w.buf, { w with buf := [] })

/-- The planner loop of enqueue_file (src/app/services/processing.py lines
124-147) at byte level: before each row, cookie_before := fb.tell() (the
wrapper's underlying position); the first row of a chunk sets the chunk's
start cookie to cookie_before; emitted chunks are
(index, start_cookie, num_rows). -/
def plannerBytesLoop (content : List Char) (cs bsize : ℕ) :
    ℕ → Wrap → ℕ → ℕ → ℕ → List (ℕ × ℕ × ℕ)
  | 0, _, _, _, _ => []
  | fuel + 1, w, idx, start, cur =>
      let cookieBefore := w.pos
      match readLine content bsize (content.length + 1) w with
      | none => if 0 < cur then [(idx, start, cur)] else []
      | some (_, w2) =>
          let start2 := if cur = 0 then cookieBefore else start
          if cs ≤ cur + 1 then
            (idx, start2, cur + 1) :: plannerBytesLoop content cs bsize fuel w2 (idx + 1) 0 0
          else
            plannerBytesLoop content cs bsize fuel w2 idx start2 (cur + 1)

/-- The chunk descriptors (index, start_cookie, num_rows) enqueue_file
produces for a blob: skip the header line, take the initial start cookie
from fb.tell(), then run the counting loop. An empty blob is unreachable
here (validation rejects it before planning). -/
def plannerBytes (content : List Char) (cs bsize : ℕ) : List (ℕ × ℕ × ℕ) :=
  match readLine content bsize (content.length + 1) ⟨0, []⟩ with
  | none => []
  | some (_, w) =>
      plannerBytesLoop content cs bsize (content.length + 1) w 0 w.pos 0

/-- Header plus data rows "a" and "b": six bytes, far below the wrapper's
8192-byte read-ahead, so the whole blob is buffered on the first line
read and every fb.tell() afterwards returns 6. -/
def c1content : List Char := ['h', '\n', 'a', '\n', 'b', '\n']

/-- C1: with CHUNK_SIZE = 1 on the blob "h\na\nb\n", the planner emits the
descriptors (0, 6, 1) and (1, 6, 1): both start cookies equal 6, the
read-ahead position after the first buffered read, not the byte offsets 2
and 4 of the data rows. Seeking to start_cookie 6 (end of blob) and
parsing num_rows = 1 rows, as the chunk reader does, yields no row at all,
while the planner counted the row ["a"] into chunk 0 — so the claim that
the reader recovers exactly the counted rows fails, as does the spec's
definition of start_cookie. -/
theorem c1_start_cookie_broken :
    plannerBytes c1content 1 8192 = [(0, 6, 1), (1, 6, 1)]
    ∧ readRowsAt c1content 6 1 = []
    ∧ (fileDataRows c1content).take 1 = [[['a']]]
    ∧ readRowsAt c1content 6 1 ≠ (fileDataRows c1content).take 1 := by
  decide

/-! ## Priority queue ordering (claim C4) -/

/-- The ChunkTask dataclass (src/app/services/processing.py lines 22-29). -/
structure ChunkTask where
  fileId : ℕ
  chunkIndex : ℕ
  startCookie : ℕ
  numRows : ℕ
  attempts : ℕ
  priority : ℕ
deriving DecidableEq, Repr

/-- Embeds ChunkTask.__lt__ (lines 31-35): higher numeric priority first,
then lower chunk_index first. -/
def taskLt (a b : ChunkTask) : Bool :=
  if a.priority ≠ b.priority then decide (b.priority < a.priority)
  else decide (a.chunkIndex < b.chunkIndex)

/-- What enqueue_file actually pushes (lines 132 and 144):
the tuple (priority, chunk_index, task). -/
abbrev QEntry : Type := ℕ × ℕ × ChunkTask

/-- Python tuple comparison on the queue entries: lexicographic on
(priority, chunk_index), falling through to ChunkTask.__lt__ only when
both numbers tie. -/
def entryLt (a b : QEntry) : Bool :=
  decide (a.1 < b.1)
    || (decide (a.1 = b.1)
        && (decide (a.2.1 < b.2.1)
            || (decide (a.2.1 = b.2.1) && taskLt a.2.2 b.2.2)))

/-- asyncio.PriorityQueue pops the entry that compares smallest; among
incomparable (tied) entries the earliest-inserted of the minima is
returned. -/
def popMin : List QEntry → Option (QEntry × List QEntry)
  | [] => none
  | e :: es =>
      match popMin es with
      | none => some (e, [])
      | some (m, rest) =>
          if entryLt m e then some (m, e :: rest) else some (e, es)

/-- The remaining chunk 1 of file A, submitted with priority 1. -/
def taskA1 : ChunkTask :=
  { fileId := 0, chunkIndex := 1, startCookie := 0, numRows := 1000,
    attempts := 0, priority := 1 }

/-- The first chunk of file B, submitted with priority 9. -/
def taskB0 : ChunkTask :=
  { fileId := 1, chunkIndex := 0, startCookie := 0, numRows := 10,
    attempts := 0, priority := 9 }

def entryA1 : QEntry := (1, 1, taskA1)

def entryB0 : QEntry := (9, 0, taskB0)

/-- C4: the queue holds the priority-1 entry of file A and the priority-9
entry of file B. Because enqueue_file pushes (priority, chunk_index, task)
and the queue pops the smallest tuple, the priority-1 entry is popped
first — the LOWER numeric priority wins, inverting the specified
(−priority, index) key. ChunkTask.__lt__ itself would order the priority-9
task first (last conjunct), but the tuple comparison never reaches it when
priorities differ, contradicting the comment on __lt__
("higher priority first"). -/
theorem c4_priority_order_inverted :
    popMin [entryA1, entryB0] = some (entryA1, [entryB0])
    ∧ entryA1.1 = 1
    ∧ entryB0.1 = 9
    ∧ taskLt taskB0 taskA1 = true := by
  decide

/-! ## Retry backoff (claim C7) -/

/-- Embeds the backoff computation in _process_task (line 263):
min(MAX_BACKOFF, BASE_BACKOFF * (2 ** (attempts - 1))), a pure function of
the attempt number. The float settings are modelled as rationals; the
defaults 1.0 and 30.0 and all values below the cap are handled exactly by
binary floating point, so the models agree on them. -/
def delay (s : Settings) (a : ℕ) : ℚ :=
  min s.maxBackoff (s.baseBackoff * 2 ^ (a - 1))

/-- C7: with the default configuration (BASE_BACKOFF = 1.0 s,
MAX_BACKOFF = 30.0 s) the delay for attempts 1, 2, 3 is 1 s, 2 s, 4 s, and
for every attempt number a ≥ 1 the delay never exceeds MAX_BACKOFF. -/
theorem c7_backoff_delay (a : ℕ) (_ha : 1 ≤ a) :
    delay defaultSettings 1 = 1
    ∧ delay defaultSettings 2 = 2
    ∧ delay defaultSettings 3 = 4
    ∧ delay defaultSettings a ≤ 30 := by
  refine ⟨?_, ?_, ?_, ?_⟩
  · show min (30 : ℚ) (1 * 2 ^ (1 - 1)) = 1
    norm_num
  · show min (30 : ℚ) (1 * 2 ^ (2 - 1)) = 2
    norm_num
  · show min (30 : ℚ) (1 * 2 ^ (3 - 1)) = 4
    norm_num
  · exact min_le_left _ _

theorem c7_backoff_delay_witness :
    1 ≤ 5
    ∧ (delay defaultSettings 1 = 1
        ∧ delay defaultSettings 2 = 2
        ∧ delay defaultSettings 3 = 4
        ∧ delay defaultSettings 5 ≤ 30) :=
  ⟨by norm_num, c7_backoff_delay 5 (by norm_num)⟩

/-! ## The chunk executor (claims C3 and C9) -/

/-- The state _process_task touches for one task: the file row with
task.file_id, the chunk row matching (task.file_id, task.chunk_index)
(scalar_one_or_none), the ProcessedRecord rows for that file as
(chunk_index, row Json data) pairs, the blob content on disk at file.path
(none when the blob is gone), and the in-memory priority queue. -/
structure ExecState where
  file : Option FileRec
  chunk : Option ChunkRec
  records : List (ℕ × List (List Char))
  disk : Option (List Char)
  queue : List QEntry
deriving DecidableEq, Repr

/-- Embeds ProcessingManager._read_rows_in_thread (lines 269-290): when the
file row is gone or has no stored path the function silently returns the
empty row list; otherwise it opens the path — raising (error) when the
blob no longer exists on disk — seeks to start_cookie and reads up to
num_rows csv rows. -/
def readRowsInThread (st : ExecState) (startCookie numRows : ℕ) :
    Except String (List (List (List Char))) :=
  match st.file with
  | none => Except.ok []
  | some f =>
      match f.path with
      | none => Except.ok []
      | some _ =>
          match st.disk with
          | none => Except.error "FileNotFoundError"
          | some content => Except.ok (readRowsAt content startCookie numRows)

/-- Embeds _maybe_finalize_file applied to the executor state (lines 292-318):
finalize the file row per maybeFinalizeFile and, when the finalize branch
ran with DELETE_FILE_ON_COMPLETE set and the blob still exists, delete the
blob. -/
def maybeFinalizeState (s : Settings) (st : ExecState) : ExecState :=
  match st.file with
  | none => st
  | some f =>
      let fires := decide (f.totalChunks ≠ 0)
        && decide (f.totalChunks ≤ f.processedChunks + f.failedChunks)
      let disk2 :=
        if fires && s.deleteFileOnComplete && f.path.isSome
            && st.disk.isSome then none
        else st.disk
      { st with file := some (maybeFinalizeFile f), disk := disk2 }

/-- Embeds ProcessingManager._process_task (lines 193-267). Note what the
source does NOT do: there is no claim guard — whatever status the chunk
row currently has (queued, completed, failed, ...), it is unconditionally
moved to processing and re-executed. On a successful read the rows are
inserted as new ProcessedRecords, the chunk is marked completed with
result_meta {processed_rows: n}, and file.processed_chunks is incremented.
On a read error the attempt counter decides between requeue (with the
task appended back to the queue after the backoff sleep) and terminal
failure (incrementing file.failed_chunks). Both paths end with
_maybe_finalize_file. -/
def processTask (s : Settings) (st : ExecState) (task : ChunkTask) :
    ExecState :=
  match st.chunk with
  | none => st
  | some chunk0 =>
      let chunk1 := { chunk0 with status := ChunkSt.processing }
      let st1 := { st with chunk := some chunk1 }
      match readRowsInThread st1 task.startCookie task.numRows with
      | Except.ok rows =>
          let st2 :=
            { st1 with
              records := st1.records
                ++ rows.map (fun r => (task.chunkIndex, r)),
              chunk := some { chunk1 with
                status := ChunkSt.completed,
                resultMeta := some (ResultMeta.processedRows rows.length) },
              file := st1.file.map (fun f =>
                { f with processedChunks := f.processedChunks + 1 }) }
          maybeFinalizeState s st2
      | Except.error e =>
          let attempts := task.attempts + 1
          let st2 :=
            { st1 with
              chunk := some { chunk1 with
                status := if attempts < s.maxRetries then ChunkSt.queued
                          else ChunkSt.failed,
                attempts := attempts,
                errorMessage := some e },
              file := if s.maxRetries ≤ attempts then
                  st1.file.map (fun f : FileRec =>
                    { f with failedChunks := f.failedChunks + 1 })
                else st1.file }
          let st3 :=
            { st2 with
              queue := if attempts < s.maxRetries then
                  st2.queue ++ [(task.priority, task.chunkIndex,
                    { task with attempts := attempts })]
                else st2.queue }
          maybeFinalizeState s st3

/-- A file whose single chunk already completed: counters final, blob
still on disk with rows "x" and "y". -/
def c3state : ExecState :=
  { file := some
      { id := 1, filename := "c3.csv", path := some "storage/uploads/c3.csv",
        status := FileSt.completed, totalChunks := 1, processedChunks := 1,
        failedChunks := 0, errorMessage := none },
    chunk := some
      { fileId := 1, index := 0, status := ChunkSt.completed, attempts := 0,
        resultMeta := some (ResultMeta.processedRows 2),
        errorMessage := none },
    records := [(0, [['x']]), (0, [['y']])],
    disk := some ['x', '\n', 'y', '\n'],
    queue := [] }

def c3task : ChunkTask :=
  { fileId := 1, chunkIndex := 0, startCookie := 0, numRows := 2,
    attempts := 0, priority := 0 }

/-- C3: invoking the executor on the already-completed chunk of c3state is
NOT a no-op: _process_task has no claim step, so the terminal chunk is
re-claimed into processing and fully re-executed — two new ProcessedRecord
rows are inserted (duplicates of the existing ones) and the file's
processed_chunks counter is incremented past total_chunks, contradicting
the claimed zero-new-records / no-state-change behaviour. -/
theorem c3_rerun_reprocesses_completed_chunk :
    (c3state.chunk.map (fun c => c.status)) = some ChunkSt.completed
    ∧ (processTask defaultSettings c3state c3task).records.length
        = c3state.records.length + 2
    ∧ ((processTask defaultSettings c3state c3task).file.map
        (fun f => f.processedChunks)) = some 2
    ∧ (c3state.file.map (fun f => f.processedChunks)) = some 1 := by
  decide

/-- A chunk of a two-chunk file whose file row lost its blob path
(blob gone): the executor is invoked on it. -/
def c9state : ExecState :=
  { file := some
      { id := 2, filename := "c9.csv", path := none,
        status := FileSt.processing, totalChunks := 2, processedChunks := 0,
        failedChunks := 0, errorMessage := none },
    chunk := some
      { fileId := 2, index := 0, status := ChunkSt.queued, attempts := 0,
        resultMeta := some (ResultMeta.planned 3), errorMessage := none },
    records := [],
    disk := none,
    queue := [] }

def c9task : ChunkTask :=
  { fileId := 2, chunkIndex := 0, startCookie := 2, numRows := 3,
    attempts := 0, priority := 0 }

/-- C9: when the blob is gone at executor read time (no stored path),
_read_rows_in_thread silently returns the empty row list and the executor
COMPLETES the chunk: status completed, zero records inserted,
processed_chunks incremented, and the file stays in processing — it is
never transitioned to failed with a reason. (When the path is stored but
the blob is missing on disk, the open() error takes the generic retry
branch instead, re-queueing the chunk up to MAX_RETRIES — also not the
claimed no-retry file failure.) -/
theorem c9_missing_blob_completes_chunk :
    (c9state.file.map (fun f => f.path)) = some none
    ∧ ((processTask defaultSettings c9state c9task).chunk.map
        (fun c => c.status)) = some ChunkSt.completed
    ∧ (processTask defaultSettings c9state c9task).records = []
    ∧ ((processTask defaultSettings c9state c9task).file.map
        (fun f => f.status)) = some FileSt.processing
    ∧ ((processTask defaultSettings c9state c9task).file.map
        (fun f => f.errorMessage)) = some none := by
  decide

/-! ## Application startup (claim C6) -/

/-- The in-process state of the ProcessingManager relevant at startup:
whether it was started, the worker count, and the in-memory queue. -/
structure ManagerState where
  started : Bool
  workers : ℕ
  queue : List QEntry
deriving DecidableEq, Repr

/-- Embeds ProcessingManager.start (src/app/services/processing.py lines
55-61): a no-op when already started, otherwise spawns concurrency worker
loops; nothing is put on the queue. -/
def managerStart (concurrency : ℕ) (m : ManagerState) : ManagerState :=
  if m.started then m else { m with started := true, workers := concurrency }

/-- Embeds the lifespan startup sequence (src/app/main.py lines 22-38):
create_db_and_tables issues CREATE TABLE IF NOT EXISTS statements — it
does not modify existing chunk rows — and then the processing manager is
started. Nothing in the source resets processing chunks to queued or
re-enqueues them; no recover_in_flight routine exists anywhere under
src/. -/
def lifespanStartup (concurrency : ℕ) (chunks : List ChunkRec)
    (m : ManagerState) : List ChunkRec × ManagerState :=
  (chunks, managerStart concurrency m)

/-- A chunk row left in status processing by a crash. -/
def c6chunk : ChunkRec :=
  { fileId := 7, index := 0, status := ChunkSt.processing, attempts := 1,
    resultMeta := some (ResultMeta.planned 5), errorMessage := none }

/-- C6: starting the application with a chunk row stuck in processing
leaves that row in processing and enqueues nothing — the startup sequence
performs no recovery, contradicting the claimed reset to queued and
re-enqueue. -/
theorem c6_no_startup_recovery :
    (lifespanStartup 1 [c6chunk] { started := false, workers := 0, queue := [] }).1
        = [c6chunk]
    ∧ c6chunk.status = ChunkSt.processing
    ∧ (lifespanStartup 1 [c6chunk]
        { started := false, workers := 0, queue := [] }).2.queue = [] := by
  decide

/-! ## Upload admission (claim C8) -/

/-- An upload request: the declared content type and the uploaded bytes. -/
structure UploadReq where
  contentType : Option String
  content : List Char
deriving DecidableEq, Repr

/-- Embeds POST /upload (src/app/api/routes.py lines 18-91) composed with
the background enqueue_file call it spawns. Except.error (code, detail)
models an HTTP rejection with no persisted File row; Except.ok (f, chunks)
models a 201 response after which the File row f (in its state after
enqueue_file ran) and the listed chunk rows are persisted. The route
itself only rejects on content type and on-disk size; the saved blob is
then registered as a File row with status queued and handed to
enqueue_file, whose structural validation happens asynchronously. -/
def uploadAndProcess (s : Settings) (req : UploadReq) :
    Except (ℕ × String) (FileRec × List ChunkRec) :=
  if req.contentType ≠ some "text/csv" then
    Except.error (400, "Only CSV files are allowed")
  else if s.maxUploadMb * 1024 * 1024 < req.content.length then
    Except.error (400, "File size exceeds configured limit")
  else
    let f : FileRec :=
      { id := 0, filename := "upload.csv",
        path := some "storage/uploads/upload.csv", status := FileSt.queued,
        totalChunks := 0, processedChunks := 0, failedChunks := 0,
        errorMessage := none }
    let r := enqueueFile s f (some req.content)
    Except.ok (r.1, r.2.1)

/-- The persisted file status of an upload outcome, none when the request
was rejected without persisting a row. -/
def uploadedStatus (r : Except (ℕ × String) (FileRec × List ChunkRec)) :
    Option FileSt :=
  match r with
  | Except.error _ => none
  | Except.ok (f, _) => some f.status

/-- A structurally invalid CSV upload: header has two columns, the data
row has one. Content type and size are acceptable to the route. -/
def c8req : UploadReq :=
  { contentType := some "text/csv",
    content := ['a', ',', 'b', '\n', '1', '\n'] }

/-- C8 counterexample: the structurally invalid CSV upload is NOT rejected
with a 4xx — the request succeeds (201) and a File row is persisted; the
validation failure only surfaces later as status failed on that row. -/
theorem c8_counterexample :
    (uploadAndProcess defaultSettings c8req).isOk = true
    ∧ uploadedStatus (uploadAndProcess defaultSettings c8req)
        = some FileSt.failed := by
  decide

/-- C8 (amended): an upload whose content type and size pass the route's
checks but whose CSV fails structural validation is accepted with 201 and
its File row persists; enqueue_file then marks that row failed with an
error message recorded and creates no chunks. -/
theorem c8_invalid_csv_persists_failed_row (s : Settings) (req : UploadReq)
    (hct : req.contentType = some "text/csv")
    (hsz : req.content.length ≤ s.maxUploadMb * 1024 * 1024)
    (hval : (validateCsvStructure req.content).1 = false) :
    ∃ f : FileRec, uploadAndProcess s req = Except.ok (f, [])
      ∧ f.status = FileSt.failed
      ∧ f.errorMessage = some "CSV validation failed" := by
  unfold uploadAndProcess
  rw [if_neg (by simp [hct])]
  rw [if_neg (by omega)]
  refine ⟨{ id := 0, filename := "upload.csv",
            path := some "storage/uploads/upload.csv",
            status := FileSt.failed, totalChunks := 0, processedChunks := 0,
            failedChunks := 0,
            errorMessage := some "CSV validation failed" }, ?_, rfl, rfl⟩
  simp [enqueueFile, hval]

theorem c8_invalid_csv_persists_failed_row_witness :
    c8req.contentType = some "text/csv"
    ∧ c8req.content.length ≤ defaultSettings.maxUploadMb * 1024 * 1024
    ∧ (validateCsvStructure c8req.content).1 = false
    ∧ ∃ f : FileRec, uploadAndProcess defaultSettings c8req = Except.ok (f, [])
        ∧ f.status = FileSt.failed
        ∧ f.errorMessage = some "CSV validation failed" :=
  ⟨by decide, by decide, by decide,
   c8_invalid_csv_persists_failed_row defaultSettings c8req (by decide)
     (by decide) (by decide)⟩

/-! ## The status endpoint (claim C10) -/

/-- The FileStatus response body of GET /status/{file_id}. -/
structure FileStatusResp where
  id : ℕ
  filename : String
  status : FileSt
  totalChunks : ℕ
  processedChunks : ℕ
  failedChunks : ℕ
  errorMessage : Option String
deriving DecidableEq, Repr

/-- Live count of the chunk rows of a file in a given status (the two
SELECT count(*) queries of get_file_status). -/
def countChunks (chunks : List ChunkRec) (fid : ℕ) (st : ChunkSt) : ℕ :=
  (chunks.filter (fun c => decide (c.fileId = fid)
    && decide (c.status = st))).length

/-- Embeds GET /status/{file_id} (src/app/api/routes.py lines 94-126) for
a known file: processed/failed are derived live from the chunk rows, total
from the file row (total = file.total_chunks or 0, the identity on a
non-null integer column); when total > 0 and completed + failed >= total
the reported status is derived from the live counts, overriding the stored
status; the source's elif branch (completed > 0 and stored status is
processing: report processing) is kept although it reassigns the same
value. -/
def getFileStatus (file : FileRec) (chunks : List ChunkRec) :
    FileStatusResp :=
  let completed := countChunks chunks file.id ChunkSt.completed
  let failed := countChunks chunks file.id ChunkSt.failed
  let total := file.totalChunks
  let statusValue :=
    if 0 < total then
      if total ≤ completed + failed then
        if failed = 0 then FileSt.completed
        else if completed = 0 then FileSt.failed
        else FileSt.completedWithErrors
      else if 0 < completed ∧ file.status = FileSt.processing then
        FileSt.processing
      else file.status
    else file.status
  { id := file.id, filename := file.filename, status := statusValue,
    totalChunks := total, processedChunks := completed,
    failedChunks := failed, errorMessage := file.errorMessage }

/-- C10: for every known file the response's processed_chunks and
failed_chunks are the live counts of its chunk rows in status completed
and failed — the stored counters on the file row do not influence the
response at all (fourth conjunct) — and whenever total_chunks > 0 and the
live counts sum to at least total_chunks, the reported status is the
terminal status derived from the live counts, whatever the stored status
is. -/
theorem c10_status_derived_live (file : FileRec) (chunks : List ChunkRec) :
    (getFileStatus file chunks).processedChunks
        = countChunks chunks file.id ChunkSt.completed
    ∧ (getFileStatus file chunks).failedChunks
        = countChunks chunks file.id ChunkSt.failed
    ∧ (∀ p q : ℕ,
        getFileStatus { file with processedChunks := p, failedChunks := q }
            chunks
          = getFileStatus file chunks)
    ∧ (0 < file.totalChunks →
        file.totalChunks ≤ countChunks chunks file.id ChunkSt.completed
            + countChunks chunks file.id ChunkSt.failed →
        (getFileStatus file chunks).status =
          (if countChunks chunks file.id ChunkSt.failed = 0 then
            FileSt.completed
           else if countChunks chunks file.id ChunkSt.completed = 0 then
            FileSt.failed
           else FileSt.completedWithErrors)) := by
  refine ⟨rfl, rfl, fun p q => rfl, fun hpos hsum => ?_⟩
  show (if 0 < file.totalChunks then
      if file.totalChunks ≤ countChunks chunks file.id ChunkSt.completed
          + countChunks chunks file.id ChunkSt.failed then _ else _
    else _) = _
  rw [if_pos hpos, if_pos hsum]

/-- Witness file and chunk rows for c10_status_derived_live: stored status
still processing and stored counters stale at zero, while the two chunk
rows are already completed and failed. -/
def c10file : FileRec :=
  { id := 5, filename := "c10.csv", path := some "storage/uploads/c10.csv",
    status := FileSt.processing, totalChunks := 2, processedChunks := 0,
    failedChunks := 0, errorMessage := none }

def c10chunks : List ChunkRec :=
  [{ fileId := 5, index := 0, status := ChunkSt.completed, attempts := 1,
     resultMeta := some (ResultMeta.processedRows 3), errorMessage := none },
   { fileId := 5, index := 1, status := ChunkSt.failed, attempts := 3,
     resultMeta := some (ResultMeta.planned 3),
     errorMessage := some "boom" }]

theorem c10_status_derived_live_witness :
    0 < c10file.totalChunks
    ∧ c10file.totalChunks ≤ countChunks c10chunks c10file.id ChunkSt.completed
        + countChunks c10chunks c10file.id ChunkSt.failed
    ∧ (getFileStatus c10file c10chunks).status = FileSt.completedWithErrors
    ∧ c10file.status = FileSt.processing :=
  ⟨by decide, by decide,
   by
    have h := (c10_status_derived_live c10file c10chunks).2.2.2
      (by decide) (by decide)
    exact h.trans (by decide),
   by decide⟩

end Granula
